import Mathlib

/-!
Shallow embedding of the comment-storage engine: the comment/revision data
model, the edit-window compare-and-swap, action-count updates, the parents
connection, the counter delta computation and the story archive/unarchive
migration, together with theorems settling the specification claims.

The primary document store is modelled as explicit lists of documents and
every conditional update as a pure function on those lists; machine-level
dates are modelled as integers.
-/

set_option autoImplicit false

namespace Talk

/-- GQLCOMMENT_STATUS enumeration. -/
inductive CommentStatus
  | NONE
  | APPROVED
  | REJECTED
  | PREMOD
  | SYSTEM_WITHHELD
deriving DecidableEq, Repr

/-- EncodedCommentActionCounts: a mapping action-type key to integer count,
modelled as an association list. -/
abbrev ActionCounts := List (String × Int)

/-- Revision: one immutable version of a comment's content. -/
structure Revision where
  id : String
  body : String
  actionCounts : ActionCounts
  metadata : String
  createdAt : Int
  media : Option String
deriving DecidableEq, Repr

/-- CommentTag record, unique by tag type per comment. -/
structure CommentTag where
  type : String
  createdAt : Int
deriving DecidableEq, Repr

/-- Comment document, mirroring the `Comment` interface of
`src/core/server/models/comment/comment.ts`. -/
structure Comment where
  id : String
  tenantID : String
  ancestorIDs : List String
  parentID : Option String
  parentRevisionID : Option String
  authorID : Option String
  storyID : String
  siteID : String
  «section» : Option String
  revisions : List Revision
  status : CommentStatus
  actionCounts : ActionCounts
  childIDs : List String
  tags : List CommentTag
  rating : Option Int
  childCount : Int
  createdAt : Int
  deletedAt : Option Int
deriving DecidableEq, Repr

/-- Look up one key of an `ActionCounts` mapping. -/
def lookupCount (m : ActionCounts) (key : String) : Option Int :=
  (m.find? (fun kv => kv.1 == key)).map (fun kv => kv.2)

/-- Key-wise addition of action counts: keys of `base` are incremented by the
matching `delta` entry and keys only in `delta` are appended.  This is both
the MongoDB `$inc` document-update semantics used by `editComment` and
`updateCommentActionCounts`, and `mergeCommentActionCounts` of
`coral-server/models/action/comment` (not under src), which sums counts per
key. -/
def mergeCounts (base delta : ActionCounts) : ActionCounts :=
  base.map (fun kv =>
    match lookupCount delta kv.1 with
    | some v => (kv.1, kv.2 + v)
    | none => kv)
  ++ delta.filter (fun kv => (lookupCount base kv.1).isNone)

/-- MongoDB `findOneAndUpdate` on a collection modelled as a list: updates the
first document matching the predicate and returns the pre-image together with
the updated collection; returns `none` and the unchanged collection when no
document matches. -/
def findOneAndUpdateList {α : Type} (pred : α → Bool) (upd : α → α) :
    List α → Option α × List α
  | [] => (none, [])
  | c :: cs =>
    if pred c then (some c, upd c :: cs)
    else
      let r := findOneAndUpdateList pred upd cs
      (r.1, c :: r.2)

/-- `retrieveComment`: find a comment by id within a tenant. -/
def retrieveComment (state : List Comment) (tenantID id : String) :
    Option Comment :=
  state.find? (fun c => c.id == id && c.tenantID == tenantID)

/-- EDITABLE_STATUSES: only comments with these statuses can be edited. -/
def EDITABLE_STATUSES : List CommentStatus :=
  [CommentStatus.NONE, CommentStatus.PREMOD, CommentStatus.APPROVED]

/-- Typed failures of `editComment`; the source throws, the embedding returns
these in `Except`. -/
inductive EditError
  | commentNotFound
  | authorMismatch
  | notEditable
  | editWindowExpired (commentID : String)
  | editConflict
deriving DecidableEq, Repr

/-- `EditCommentInput`. -/
structure EditCommentInput where
  id : String
  authorID : Option String
  status : CommentStatus
  lastEditableCommentCreatedAt : Int
  body : String
  metadata : String
  media : Option String
  actionCounts : ActionCounts
deriving DecidableEq, Repr

/-- `validateEditable`: re-check the edit predicates on a freshly fetched
comment, returning the first failing check's error. -/
def validateEditable (comment : Comment) (authorID : Option String)
    (lastEditableCommentCreatedAt : Int) : Option EditError :=
  if comment.authorID ≠ authorID then some EditError.authorMismatch
  else if comment.status ∉ EDITABLE_STATUSES then some EditError.notEditable
  else if comment.createdAt ≤ lastEditableCommentCreatedAt then
    some (EditError.editWindowExpired comment.id)
  else none

/-- The atomic conditional-update predicate of `editComment`'s
`findOneAndUpdate` call: id, tenant and author match, status editable, not
deleted, and created strictly after the edit-window boundary. -/
def editPredicate (tenantID : String) (input : EditCommentInput)
    (c : Comment) : Bool :=
  c.id == input.id && c.tenantID == tenantID && c.authorID == input.authorID
    && EDITABLE_STATUSES.contains c.status && c.deletedAt.isNone
    && decide (input.lastEditableCommentCreatedAt < c.createdAt)

/-- The revision appended by `editComment` (`uuid.v4()` modelled as an
explicit fresh id argument). -/
def makeEditRevision (input : EditCommentInput) (now : Int)
    (newRevisionID : String) : Revision :=
  { id := newRevisionID
    body := input.body
    actionCounts := input.actionCounts
    metadata := input.metadata
    createdAt := now
    media := input.media }

/-- The document mutation of `editComment`'s atomic update: `$set` status,
`$push` the new revision, and `$inc` the action counts when a non-empty
delta was supplied. -/
def editUpdate (input : EditCommentInput) (now : Int) (newRevisionID : String)
    (c : Comment) : Comment :=
  { c with
    status := input.status
    revisions := c.revisions ++ [makeEditRevision input now newRevisionID]
    actionCounts :=
      if input.actionCounts.isEmpty then c.actionCounts
      else mergeCounts c.actionCounts input.actionCounts }

/-- Result of a successful edit: pre-image, computed post-image and the new
revision. -/
structure EditResult where
  before : Comment
  after : Comment
  revision : Revision
deriving DecidableEq, Repr

/-- `editComment`: the edit-window compare-and-swap.  Applies the atomic
conditional update; on a miss, re-fetches the comment and classifies the
failure via `validateEditable`, falling back to the generic edit-conflict
error. -/
def editComment (state : List Comment) (tenantID : String)
    (input : EditCommentInput) (now : Int) (newRevisionID : String) :
    Except EditError (EditResult × List Comment) :=
  let result := findOneAndUpdateList (editPredicate tenantID input)
    (editUpdate input now newRevisionID) state
  match result.1 with
  | some before =>
    Except.ok
      ({ before := before
         after :=
           { before with
             status := input.status
             actionCounts := mergeCounts before.actionCounts input.actionCounts
             revisions :=
               before.revisions ++ [makeEditRevision input now newRevisionID] }
         revision := makeEditRevision input now newRevisionID }, result.2)
  | none =>
    match retrieveComment state tenantID input.id with
    | none => Except.error EditError.commentNotFound
    | some comment =>
      match validateEditable comment input.authorID
          input.lastEditableCommentCreatedAt with
      | some e => Except.error e
      | none => Except.error EditError.editConflict

/-- `pushChildCommentIDOntoParent` (linkChild): atomically `$push` the child
id onto the parent's `childIDs` and `$inc` its `childCount`; returns the
matched document's pre-image (`result.value`) together with the updated
collection. -/
def pushChildCommentIDOntoParent (state : List Comment)
    (tenantID parentID childID : String) : Option Comment × List Comment :=
  findOneAndUpdateList (fun c => c.tenantID == tenantID && c.id == parentID)
    (fun c =>
      { c with
        childIDs := c.childIDs ++ [childID]
        childCount := c.childCount + 1 })
    state

/-- Typed failure of `updateCommentActionCounts`. -/
inductive ActionCountsError
  | commentRevisionNotFound (id revisionID : String)
deriving DecidableEq, Repr

/-- The document mutation of `updateCommentActionCounts`: `$inc` the
comment-level aggregate and, through the `$[revision]` array filter, the
counts of every revision whose id equals `revisionID`. -/
def applyActionCountsUpdate (revisionID : String) (delta : ActionCounts)
    (c : Comment) : Comment :=
  { c with
    actionCounts := mergeCounts c.actionCounts delta
    revisions := c.revisions.map (fun r =>
      if r.id == revisionID then
        { r with actionCounts := mergeCounts r.actionCounts delta }
      else r) }

/-- `updateCommentActionCounts`: one `findOneAndUpdate` keyed only by
`{id, tenantID}` whose update carries the `$[revision]` array filter; with
`returnOriginal: false` it yields the post-image, and the error is raised
exactly when `result.value` is empty. -/
def updateCommentActionCounts (state : List Comment)
    (tenantID id revisionID : String) (delta : ActionCounts) :
    Except ActionCountsError (Comment × List Comment) :=
  let result := findOneAndUpdateList
    (fun c => c.id == id && c.tenantID == tenantID)
    (applyActionCountsUpdate revisionID delta) state
  match result.1 with
  | some pre =>
    Except.ok (applyActionCountsUpdate revisionID delta pre, result.2)
  | none =>
    Except.error (ActionCountsError.commentRevisionNotFound id revisionID)

/-- `retrieveManyComments`: fetch the documents matching the id set within
the tenant, then re-associate them to the requested order — with the
source's early return of an empty list when the fetch produced no items. -/
def retrieveManyComments (collection : List Comment) (tenantID : String)
    (ids : List String) : List (Option Comment) :=
  let items := collection.filter
    (fun c => ids.contains c.id && c.tenantID == tenantID)
  if items.length > 0 then
    ids.map (fun i => items.find? (fun c => c.id == i))
  else []

/-- Connection edge: a node paired with its cursor.  The claims under proof
only exercise ordinal (numeric) cursors. -/
structure Edge (α : Type) where
  node : α
  cursor : Nat
deriving DecidableEq, Repr

/-- Connection pageInfo. -/
structure PageInfo where
  hasNextPage : Bool
  hasPreviousPage : Bool
  startCursor : Option Nat
  endCursor : Option Nat
deriving DecidableEq, Repr

/-- Cursor-paginated connection. -/
structure Connection (α : Type) where
  edges : List (Edge α)
  nodes : List α
  pageInfo : PageInfo
deriving DecidableEq, Repr

/-- Modelled from the spec: `createConnection` (coral-server/models/helpers,
not under src) builds a connection with no nodes and no edges around the
supplied pageInfo. -/
def createConnection {α : Type} (pageInfo : PageInfo) : Connection α :=
  { edges := [], nodes := [], pageInfo := pageInfo }

/-- Modelled from the spec: `doesNotContainNull`
(coral-server/models/helpers, not under src) checks that no entry of the
list resolved to nothing. -/
def doesNotContainNull {α : Type} (l : List (Option α)) : Bool :=
  l.all (fun x => x.isSome)

/-- Modelled from the spec: `nodesToEdges` (coral-server/models/helpers, not
under src) pairs every node with the cursor computed by the transformer from
the node and its zero-based index. -/
def nodesToEdges {α : Type} (nodes : List α) (getCursor : α → Nat → Nat) :
    List (Edge α) :=
  nodes.enum.map (fun p => { node := p.2, cursor := getCursor p.2 p.1 })

/-- Modelled from the spec: `hasAncestors`
(coral-server/models/comment/helpers, not under src) — a comment has
ancestors exactly when its `ancestorIDs` sequence is non-empty (the spec's
data model: "empty for top-level"). -/
def hasAncestors (c : Comment) : Bool :=
  !c.ancestorIDs.isEmpty

/-- Typed failure of `retrieveCommentParentsConnection`: the
broken-ancestry integrity error. -/
inductive ParentsError
  | brokenAncestry
deriving DecidableEq, Repr

/-- The `(skip, limit)` window sliced out of a comment's `ancestorIDs`. -/
def ancestorWindow (comment : Comment) (limit : Int) (skip : Nat) :
    List String :=
  (comment.ancestorIDs.drop skip).take limit.toNat

/-- `retrieveCommentParentsConnection`: slice the precomputed `ancestorIDs`
by the `(limit, skip)` window, bulk-fetch the identities, fail on a null
entry, and build reversed edges with cursor `index + skip + 1`. -/
def retrieveCommentParentsConnection (collection : List Comment)
    (tenantID : String) (comment : Comment) (limit : Int) (skip : Nat) :
    Except ParentsError (Connection Comment) :=
  if !hasAncestors comment then
    Except.ok (createConnection
      { hasNextPage := false, hasPreviousPage := false
        startCursor := none, endCursor := none })
  else if limit ≤ 0 then
    Except.ok (createConnection
      { hasNextPage := false, hasPreviousPage := true
        startCursor := some 0, endCursor := some 0 })
  else
    let ancestorIDs := ancestorWindow comment limit skip
    let nodes := retrieveManyComments collection tenantID ancestorIDs
    if !doesNotContainNull nodes then
      Except.error ParentsError.brokenAncestry
    else
      let nodesSome := nodes.filterMap id
      let edges :=
        (nodesToEdges nodesSome (fun _ index => index + skip + 1)).reverse
      Except.ok
        { edges := edges
          nodes := nodesSome
          pageInfo :=
            { hasNextPage := false
              hasPreviousPage :=
                decide (comment.ancestorIDs.length > limit.toNat + skip)
              startCursor := edges.head?.map Edge.cursor
              endCursor := edges.getLast?.map Edge.cursor } }

/-- Modelled from the spec: the store's sort is realised as an insertion
sort with a boolean comes-before relation; `insertSorted` places an element
before the first entry it precedes. -/
def insertSorted {α : Type} (le : α → α → Bool) (a : α) :
    List α → List α
  | [] => [a]
  | x :: xs => if le a x then a :: x :: xs else x :: insertSorted le a xs

/-- Modelled from the spec: sort a document list by the comes-before
relation. -/
def sortDocs {α : Type} (le : α → α → Bool) (l : List α) : List α :=
  l.foldr (insertSorted le) []

/-- Comes-before relation of a descending count sort with ties broken by
`createdAt` descending — the order `applyInputToQuery` requests from the
store for the count-based sort variants. -/
def byCountDesc (count : Comment → Int) (a b : Comment) : Bool :=
  if count a = count b then decide (b.createdAt ≤ a.createdAt)
  else decide (count b < count a)

/-- REPLIES_DESC order: `{ childCount: -1, createdAt: -1 }`. -/
def repliesLE : Comment → Comment → Bool :=
  byCountDesc (fun c => c.childCount)

/-- A comment's REACTION action count (missing key counts as zero). -/
def reactionCount (c : Comment) : Int :=
  (lookupCount c.actionCounts "REACTION").getD 0

/-- REACTION_DESC order: `{ "actionCounts.REACTION": -1, createdAt: -1 }`. -/
def reactionLE : Comment → Comment → Bool :=
  byCountDesc reactionCount

/-- `cursorGetterFactory` for the REPLIES_DESC / REACTION_DESC variants: the
cursor is the running ordinal `(after or zero) + index + 1`. -/
def ordinalCursorGetter (after : Option Nat) : Comment → Nat → Nat :=
  fun _ index => after.getD 0 + index + 1

/-- Modelled from the spec: `resolveConnection` (coral-server/models/helpers,
not under src) runs the ordered query — sort, then skip to the cursor
(`Query.after`), then fetch one more node than the page limit to decide
`hasNextPage` — and assembles the page, its edges via the cursor transformer,
and the boundary cursors. -/
def resolveConnection (docs : List Comment) (le : Comment → Comment → Bool)
    (skip limit : Nat) (getCursor : Comment → Nat → Nat) :
    Connection Comment :=
  let fetched := ((sortDocs le docs).drop skip).take (limit + 1)
  let nodes := fetched.take limit
  let edges := nodesToEdges nodes getCursor
  { edges := edges
    nodes := nodes
    pageInfo :=
      { hasNextPage := decide (limit < fetched.length)
        hasPreviousPage := decide (0 < skip)
        startCursor := edges.head?.map Edge.cursor
        endCursor := edges.getLast?.map Edge.cursor } }

/-- The REPLIES_DESC connection: `applyInputToQuery` orders by
`{ childCount: -1, createdAt: -1 }` and applies the `after` cursor as the
skip offset, then `retrieveConnection` resolves it with the ordinal cursor
getter. -/
def retrieveRepliesDescConnection (docs : List Comment) (after : Option Nat)
    (limit : Nat) : Connection Comment :=
  resolveConnection docs repliesLE (after.getD 0) limit
    (ordinalCursorGetter after)

/-- The REACTION_DESC connection: ordered by
`{ "actionCounts.REACTION": -1, createdAt: -1 }` with the same ordinal
cursor handling. -/
def retrieveReactionDescConnection (docs : List Comment) (after : Option Nat)
    (limit : Nat) : Connection Comment :=
  resolveConnection docs reactionLE (after.getD 0) limit
    (ordinalCursorGetter after)

/-- Per-queue totals of the moderation-queue breakdown. -/
structure QueueCounts where
  unmoderated : Int
  reported : Int
  pending : Int
deriving DecidableEq, Repr

/-- Moderation-queue breakdown: total plus per-queue totals. -/
structure ModerationQueueCounts where
  total : Int
  queues : QueueCounts
deriving DecidableEq, Repr

/-- Per-status breakdown of comment counts. -/
structure StatusCounts where
  NONE : Int
  APPROVED : Int
  REJECTED : Int
  PREMOD : Int
  SYSTEM_WITHHELD : Int
deriving DecidableEq, Repr

/-- RelatedCommentCounts: the signed aggregate over per-action totals, the
moderation-queue breakdown and the per-status breakdown. -/
structure RelatedCommentCounts where
  action : ActionCounts
  moderationQueue : ModerationQueueCounts
  status : StatusCounts
deriving DecidableEq, Repr

/-- Modelled from the spec: `createEmptyRelatedCommentCounts`
(coral-server/models/comment/counts, not under src) — every leaf counter
zero and no per-action entries. -/
def createEmptyRelatedCommentCounts : RelatedCommentCounts :=
  { action := []
    moderationQueue :=
      { total := 0
        queues := { unmoderated := 0, reported := 0, pending := 0 } }
    status :=
      { NONE := 0, APPROVED := 0, REJECTED := 0, PREMOD := 0
        SYSTEM_WITHHELD := 0 } }

/-- Story document: aggregate counters plus the archive lifecycle flags. -/
structure Story where
  id : String
  tenantID : String
  commentCounts : RelatedCommentCounts
  isArchiving : Bool
  isArchived : Bool
deriving DecidableEq, Repr

/-- `getCommentCounts` of the archive module: scale every leaf counter of
the story's counter snapshot by `-1` when negating, `+1` otherwise,
starting from the empty counts and writing each present key. -/
def getCommentCounts (story : Story) (negate : Bool) :
    RelatedCommentCounts :=
  let commentCounts := story.commentCounts
  let multiplier : Int := if negate then -1 else 1
  { action := commentCounts.action.map (fun kv => (kv.1, kv.2 * multiplier))
    moderationQueue :=
      { total := commentCounts.moderationQueue.total * multiplier
        queues :=
          { unmoderated :=
              commentCounts.moderationQueue.queues.unmoderated * multiplier
            reported :=
              commentCounts.moderationQueue.queues.reported * multiplier
            pending :=
              commentCounts.moderationQueue.queues.pending * multiplier } }
    status :=
      { NONE := commentCounts.status.NONE * multiplier
        APPROVED := commentCounts.status.APPROVED * multiplier
        REJECTED := commentCounts.status.REJECTED * multiplier
        PREMOD := commentCounts.status.PREMOD * multiplier
        SYSTEM_WITHHELD :=
          commentCounts.status.SYSTEM_WITHHELD * multiplier } }

/-- Leaf-wise addition of two counter aggregates (atomic increment of every
field). -/
def addRelatedCommentCounts (a b : RelatedCommentCounts) :
    RelatedCommentCounts :=
  { action := mergeCounts a.action b.action
    moderationQueue :=
      { total := a.moderationQueue.total + b.moderationQueue.total
        queues :=
          { unmoderated := a.moderationQueue.queues.unmoderated
              + b.moderationQueue.queues.unmoderated
            reported := a.moderationQueue.queues.reported
              + b.moderationQueue.queues.reported
            pending := a.moderationQueue.queues.pending
              + b.moderationQueue.queues.pending } }
    status :=
      { NONE := a.status.NONE + b.status.NONE
        APPROVED := a.status.APPROVED + b.status.APPROVED
        REJECTED := a.status.REJECTED + b.status.REJECTED
        PREMOD := a.status.PREMOD + b.status.PREMOD
        SYSTEM_WITHHELD :=
          a.status.SYSTEM_WITHHELD + b.status.SYSTEM_WITHHELD } }

/-- A keyed aggregate counter store (per tenant+story or tenant+site). -/
abbrev AggregateCounts := List ((String × String) × RelatedCommentCounts)

/-- Modelled from the spec: `updateSiteCounts` / `updateSharedCommentCounts`
(coral-server/models/site and models/comment/counts, not under src) apply a
delta to the keyed aggregate by atomic increment — never read-modify-write;
a missing key starts from the delta itself. -/
def incrAggregate (m : AggregateCounts) (key : String × String)
    (delta : RelatedCommentCounts) : AggregateCounts :=
  if m.any (fun kv => kv.1 == key) then
    m.map (fun kv =>
      if kv.1 == key then (kv.1, addRelatedCommentCounts kv.2 delta) else kv)
  else m ++ [(key, delta)]

/-- Comment-action document (scoped by tenant, story and comment). -/
structure CommentActionDoc where
  id : String
  tenantID : String
  storyID : String
  commentID : String
deriving DecidableEq, Repr

/-- Moderation-action document (scoped by tenant and comment). -/
structure ModerationActionDoc where
  id : String
  tenantID : String
  commentID : String
deriving DecidableEq, Repr

/-- Batch size of the archive migration loop. -/
def BATCH_SIZE : Nat := 100

/-- The bulk delete of one batch: remove from the source every document of
the tenant whose id is in the batch's id set. -/
def bulkDeleteByIDs {α : Type} (getId getTenant : α → String)
    (tenantID : String) (ids : List String) (source : List α) : List α :=
  source.filter (fun d => !(getTenant d == tenantID && ids.contains (getId d)))

/-- The batched insert-then-delete loop of `moveDocuments`: accumulate a
batch from the selection cursor; at the batch size, bulk-insert it into the
destination and bulk-delete its ids from the source; flush the remainder at
the end.  Returns the new source, the new destination and the moved ids
(collected only when requested). -/
def moveDocumentsLoop {α : Type} (getId getTenant : α → String)
    (tenantID : String) (returnMovedIDs : Bool) :
    List α → List α → List α → List α → List String → List String →
    List α × List α × List String
  | [], source, destination, insertBatch, deleteIDs, allIDs =>
    let destination' :=
      if insertBatch.length > 0 then destination ++ insertBatch
      else destination
    let source' :=
      if deleteIDs.length > 0 then
        bulkDeleteByIDs getId getTenant tenantID deleteIDs source
      else source
    (source', destination', allIDs)
  | doc :: rest, source, destination, insertBatch, deleteIDs, allIDs =>
    let insertBatch' := insertBatch ++ [doc]
    let deleteIDs' := deleteIDs ++ [getId doc]
    let allIDs' := if returnMovedIDs then allIDs ++ [getId doc] else allIDs
    if insertBatch'.length ≥ BATCH_SIZE then
      moveDocumentsLoop getId getTenant tenantID returnMovedIDs rest
        (bulkDeleteByIDs getId getTenant tenantID deleteIDs' source)
        (destination ++ insertBatch') [] [] allIDs'
    else
      moveDocumentsLoop getId getTenant tenantID returnMovedIDs rest
        source destination insertBatch' deleteIDs' allIDs'

/-- `moveDocuments`: drive the batched loop over the documents produced by
the selection cursor. -/
def moveDocuments {α : Type} (getId getTenant : α → String)
    (tenantID : String) (selection source destination : List α)
    (returnMovedIDs : Bool) : List α × List α × List String :=
  moveDocumentsLoop getId getTenant tenantID returnMovedIDs selection
    source destination [] [] []

/-- Typed failures of the archive entry points. -/
inductive ArchiveError
  | archiveConnectionMissing
  | storyNotFound (id : String)
deriving DecidableEq, Repr

/-- The primary store, the archive store and the cache, as one explicit
state. -/
structure DBState where
  liveComments : List Comment
  archivedComments : List Comment
  liveCommentActions : List CommentActionDoc
  archivedCommentActions : List CommentActionDoc
  liveModerationActions : List ModerationActionDoc
  archivedModerationActions : List ModerationActionDoc
  stories : List Story
  siteCounts : AggregateCounts
  sharedCounts : AggregateCounts
deriving DecidableEq, Repr

/-- `archiveStory`: fail when the archive connection is missing or the story
does not exist; return successfully at once when the story is already
archived; otherwise move the story's comments, then their comment-actions
and moderation-actions, to the archive store, subtract the negated counter
snapshot from the site and shared aggregates, and mark the story archived,
returning the post-image. -/
def archiveStory (hasArchiveConn : Bool) (st : DBState)
    (tenantID id : String) :
    Except ArchiveError (Option Story × DBState) :=
  if !hasArchiveConn then Except.error ArchiveError.archiveConnectionMissing
  else
    match st.stories.find? (fun s => s.id == id && s.tenantID == tenantID) with
    | none => Except.error (ArchiveError.storyNotFound id)
    | some targetStory =>
      if targetStory.isArchived then Except.ok (none, st)
      else
        let targetComments := st.liveComments.filter
          (fun c => c.tenantID == tenantID && c.storyID == id)
        let targetCommentActions := st.liveCommentActions.filter
          (fun a => a.tenantID == tenantID && a.storyID == id)
        let movedComments := moveDocuments Comment.id Comment.tenantID
          tenantID targetComments st.liveComments st.archivedComments true
        let targetCommentIDs := movedComments.2.2
        let targetModerationActions := st.liveModerationActions.filter
          (fun a => a.tenantID == tenantID
            && targetCommentIDs.contains a.commentID)
        let movedActions := moveDocuments CommentActionDoc.id
          CommentActionDoc.tenantID tenantID targetCommentActions
          st.liveCommentActions st.archivedCommentActions false
        let movedModActions := moveDocuments ModerationActionDoc.id
          ModerationActionDoc.tenantID tenantID targetModerationActions
          st.liveModerationActions st.archivedModerationActions false
        let commentCounts := getCommentCounts targetStory true
        let storiesRes := findOneAndUpdateList
          (fun s => s.id == id && s.tenantID == tenantID)
          (fun s => { s with isArchiving := false, isArchived := true })
          st.stories
        Except.ok
          (storiesRes.1.map
            (fun s => { s with isArchiving := false, isArchived := true }),
           { st with
             liveComments := movedComments.1
             archivedComments := movedComments.2.1
             liveCommentActions := movedActions.1
             archivedCommentActions := movedActions.2.1
             liveModerationActions := movedModActions.1
             archivedModerationActions := movedModActions.2.1
             stories := storiesRes.2
             siteCounts := incrAggregate st.siteCounts (tenantID, id)
               commentCounts
             sharedCounts := incrAggregate st.sharedCounts (tenantID, id)
               commentCounts })

/-- `unarchiveStory`: the exact mirror of `archiveStory` — source and
destination swapped, counters applied without negation, final flags
`isArchived = false`. -/
def unarchiveStory (hasArchiveConn : Bool) (st : DBState)
    (tenantID id : String) :
    Except ArchiveError (Option Story × DBState) :=
  if !hasArchiveConn then Except.error ArchiveError.archiveConnectionMissing
  else
    match st.stories.find? (fun s => s.id == id && s.tenantID == tenantID) with
    | none => Except.error (ArchiveError.storyNotFound id)
    | some targetStory =>
      if !targetStory.isArchived then Except.ok (none, st)
      else
        let targetComments := st.archivedComments.filter
          (fun c => c.tenantID == tenantID && c.storyID == id)
        let targetCommentActions := st.archivedCommentActions.filter
          (fun a => a.tenantID == tenantID && a.storyID == id)
        let movedComments := moveDocuments Comment.id Comment.tenantID
          tenantID targetComments st.archivedComments st.liveComments true
        let targetCommentIDs := movedComments.2.2
        let targetModerationActions := st.archivedModerationActions.filter
          (fun a => a.tenantID == tenantID
            && targetCommentIDs.contains a.commentID)
        let movedActions := moveDocuments CommentActionDoc.id
          CommentActionDoc.tenantID tenantID targetCommentActions
          st.archivedCommentActions st.liveCommentActions false
        let movedModActions := moveDocuments ModerationActionDoc.id
          ModerationActionDoc.tenantID tenantID targetModerationActions
          st.archivedModerationActions st.liveModerationActions false
        let commentCounts := getCommentCounts targetStory false
        let storiesRes := findOneAndUpdateList
          (fun s => s.id == id && s.tenantID == tenantID)
          (fun s => { s with isArchiving := false, isArchived := false })
          st.stories
        Except.ok
          (storiesRes.1.map
            (fun s => { s with isArchiving := false, isArchived := false }),
           { st with
             archivedComments := movedComments.1
             liveComments := movedComments.2.1
             archivedCommentActions := movedActions.1
             liveCommentActions := movedActions.2.1
             archivedModerationActions := movedModActions.1
             liveModerationActions := movedModActions.2.1
             stories := storiesRes.2
             siteCounts := incrAggregate st.siteCounts (tenantID, id)
               commentCounts
             sharedCounts := incrAggregate st.sharedCounts (tenantID, id)
               commentCounts })

/-- Concrete revision used by the evaluation examples below. -/
def sampleRevision : Revision :=
  { id := "r1", body := "b", actionCounts := [], metadata := "m"
    createdAt := 0, media := none }

/-- Concrete comment used by the evaluation examples below. -/
def baseComment : Comment :=
  { id := "c1", tenantID := "t", ancestorIDs := [], parentID := none
    parentRevisionID := none, authorID := some "u1", storyID := "s1"
    siteID := "w1", «section» := none, revisions := [sampleRevision]
    status := CommentStatus.APPROVED, actionCounts := [], childIDs := []
    tags := [], rating := none, childCount := 0, createdAt := 0
    deletedAt := none }

/-- Edit input whose author differs from `baseComment`'s author while the
edit window has also expired. -/
def editInputMismatch : EditCommentInput :=
  { id := "c1", authorID := some "u2", status := CommentStatus.APPROVED
    lastEditableCommentCreatedAt := 5, body := "nb", metadata := "m"
    media := none, actionCounts := [] }

/-- Edit input matching `baseComment`'s author, with the edit window
expired. -/
def editInputExpired : EditCommentInput :=
  { id := "c1", authorID := some "u1", status := CommentStatus.APPROVED
    lastEditableCommentCreatedAt := 5, body := "nb", metadata := "m"
    media := none, actionCounts := [] }

/-- A rejected comment inside its edit window. -/
def rejectedComment : Comment :=
  { baseComment with
    id := "c2"
    status := CommentStatus.REJECTED
    createdAt := 10 }

/-- Edit input for `rejectedComment` with a matching author and an open
window. -/
def editInputRejected : EditCommentInput :=
  { id := "c2", authorID := some "u1", status := CommentStatus.APPROVED
    lastEditableCommentCreatedAt := 5, body := "nb", metadata := "m"
    media := none, actionCounts := [] }

/-- A reply comment with two ancestors. -/
def childComment : Comment :=
  { baseComment with id := "c9", ancestorIDs := ["a1", "a2"] }

/-- A stored comment for the first of `childComment`'s ancestors. -/
def storedAncestor : Comment :=
  { baseComment with id := "a1" }

/-- Concrete counter snapshot used by the archive examples. -/
def sampleCounts : RelatedCommentCounts :=
  { action := [("REACTION", 2)]
    moderationQueue :=
      { total := 3, queues := { unmoderated := 1, reported := 1, pending := 1 } }
    status :=
      { NONE := 1, APPROVED := 2, REJECTED := 0, PREMOD := 0
        SYSTEM_WITHHELD := 0 } }

/-- An already-archived story. -/
def archivedStoryA : Story :=
  { id := "s1", tenantID := "t", commentCounts := sampleCounts
    isArchiving := false, isArchived := true }

/-- A live (not archived) story. -/
def liveStoryB : Story :=
  { id := "s2", tenantID := "t", commentCounts := sampleCounts
    isArchiving := false, isArchived := false }

/-- Concrete store state with one archived and one live story. -/
def sampleDB : DBState :=
  { liveComments := [], archivedComments := []
    liveCommentActions := [], archivedCommentActions := []
    liveModerationActions := [], archivedModerationActions := []
    stories := [archivedStoryA, liveStoryB]
    siteCounts := [], sharedCounts := [] }

/-! Helper lemmas. -/

theorem findOneAndUpdateList_fst {α : Type} (pred : α → Bool) (upd : α → α)
    (l : List α) : (findOneAndUpdateList pred upd l).1 = l.find? pred := by
  induction l with
  | nil => rfl
  | cons c cs ih =>
    by_cases h : pred c
    · simp [findOneAndUpdateList, List.find?, h]
    · simp only [Bool.not_eq_true] at h
      simp [findOneAndUpdateList, List.find?, h, ih]

theorem findOneAndUpdateList_of_none {α : Type} (pred : α → Bool)
    (upd : α → α) (l : List α) (h : l.find? pred = none) :
    findOneAndUpdateList pred upd l = (none, l) := by
  induction l with
  | nil => rfl
  | cons c cs ih =>
    rw [List.find?_cons] at h
    split at h
    · exact absurd h (by simp)
    · rename_i hc
      simp [findOneAndUpdateList, hc, ih h]

theorem editComment_of_find_none (state : List Comment) (tenantID : String)
    (input : EditCommentInput) (now : Int) (newRevisionID : String)
    (hmiss : state.find? (editPredicate tenantID input) = none) :
    editComment state tenantID input now newRevisionID =
      (match retrieveComment state tenantID input.id with
       | none => Except.error EditError.commentNotFound
       | some comment =>
         match validateEditable comment input.authorID
             input.lastEditableCommentCreatedAt with
         | some e => Except.error e
         | none => Except.error EditError.editConflict) := by
  simp only [editComment]
  rw [findOneAndUpdateList_fst, hmiss]

/-- C1: when `editComment`'s atomic conditional update matches no document
while a comment with the given tenantID and id exists, the failure is
classified by re-fetching the comment and re-checking predicates in this
fixed order — author mismatch first, then non-editable status, then
`createdAt ≤ lastEditableCommentCreatedAt` as CommentEditWindowExpiredError,
and otherwise the generic edit-conflict error — so identity/authorization
failures are always reported before timing failures. -/
theorem editComment_miss_classifies_in_order (state : List Comment)
    (tenantID : String) (input : EditCommentInput) (now : Int)
    (newRevisionID : String) (c : Comment)
    (hmiss : state.find? (editPredicate tenantID input) = none)
    (hfound : retrieveComment state tenantID input.id = some c) :
    editComment state tenantID input now newRevisionID =
      Except.error
        (if c.authorID ≠ input.authorID then EditError.authorMismatch
         else if c.status ∉ EDITABLE_STATUSES then EditError.notEditable
         else if c.createdAt ≤ input.lastEditableCommentCreatedAt then
           EditError.editWindowExpired c.id
         else EditError.editConflict) := by
  rw [editComment_of_find_none state tenantID input now newRevisionID hmiss,
    hfound]
  unfold validateEditable
  dsimp only
  split_ifs <;> rfl

/-- C1 witness: a rejected comment edited by its author inside the window is
reported as not-editable via the classification chain. -/
theorem editComment_miss_classifies_in_order_witness :
    editComment [rejectedComment] "t" editInputRejected 20 "r2" =
      Except.error EditError.notEditable := by
  have h := editComment_miss_classifies_in_order [rejectedComment] "t"
    editInputRejected 20 "r2" rejectedComment (by rfl) (by rfl)
  rw [h]
  rfl

/-- C2 counterexample: the stored comment's `createdAt = 0` is at most the
window boundary `5`, yet the call fails with the author-mismatch error, not
CommentEditWindowExpiredError. -/
theorem editComment_expired_window_counterexample :
    editComment [baseComment] "t" editInputMismatch 10 "r2" =
      Except.error EditError.authorMismatch
    ∧ EditError.authorMismatch ≠ EditError.editWindowExpired baseComment.id :=
  ⟨rfl, by decide⟩

/-- C2 (amended): `editComment` on an existing comment whose
`createdAt ≤ lastEditableCommentCreatedAt` fails with
CommentEditWindowExpiredError provided the input author matches the stored
author and the stored status is editable; with a mismatched author or a
non-editable status those failures are reported instead. -/
theorem editComment_expired_window_error (state : List Comment)
    (tenantID : String) (input : EditCommentInput) (now : Int)
    (newRevisionID : String) (c : Comment)
    (hfound : retrieveComment state tenantID input.id = some c)
    (huniq : ∀ c' ∈ state, c'.id = input.id → c'.tenantID = tenantID →
      c' = c)
    (hauthor : c.authorID = input.authorID)
    (hstatus : c.status ∈ EDITABLE_STATUSES)
    (hwindow : c.createdAt ≤ input.lastEditableCommentCreatedAt) :
    editComment state tenantID input now newRevisionID =
      Except.error (EditError.editWindowExpired c.id) := by
  have hmiss : state.find? (editPredicate tenantID input) = none := by
    rw [List.find?_eq_none]
    intro x hx hpred
    unfold editPredicate at hpred
    simp only [Bool.and_eq_true, beq_iff_eq, decide_eq_true_eq] at hpred
    obtain ⟨⟨⟨⟨⟨hid, htid⟩, _⟩, _⟩, _⟩, hgt⟩ := hpred
    have hxc := huniq x hx hid htid
    subst hxc
    omega
  rw [editComment_of_find_none state tenantID input now newRevisionID hmiss,
    hfound]
  unfold validateEditable
  simp [hauthor, hstatus, hwindow]

/-- C2 witness: the author's own edit of `baseComment` past the window
boundary fails with CommentEditWindowExpiredError. -/
theorem editComment_expired_window_error_witness :
    editComment [baseComment] "t" editInputExpired 10 "r2" =
      Except.error (EditError.editWindowExpired "c1") := by
  have h := editComment_expired_window_error [baseComment] "t"
    editInputExpired 10 "r2" baseComment (by rfl) (by decide) (by rfl)
    (by decide) (by decide)
  exact h

/-- C9: `pushChildCommentIDOntoParent` with a parentID that identifies no
comment in the tenant returns a null value, raises no error and leaves the
collection unmodified. -/
theorem pushChild_missing_parent_silent (state : List Comment)
    (tenantID parentID childID : String)
    (hmiss : state.find?
      (fun c => c.tenantID == tenantID && c.id == parentID) = none) :
    pushChildCommentIDOntoParent state tenantID parentID childID =
      (none, state) := by
  unfold pushChildCommentIDOntoParent
  exact findOneAndUpdateList_of_none _ _ _ hmiss

/-- C9 witness: linking a child onto the absent parent `zz` returns null and
leaves the single-comment collection untouched. -/
theorem pushChild_missing_parent_silent_witness :
    pushChildCommentIDOntoParent [baseComment] "t" "zz" "c7" =
      (none, [baseComment]) :=
  pushChild_missing_parent_silent [baseComment] "t" "zz" "c7" (by rfl)

/-- C3 counterexample: `baseComment` has only revision `r1`; updating action
counts against revision id `r2` does not fail — it succeeds, incrementing
the comment-level aggregate while no revision's counts change. -/
theorem updateCommentActionCounts_revision_miss_succeeds :
    updateCommentActionCounts [baseComment] "t" "c1" "r2" [("LIKE", 1)] =
      Except.ok ({ baseComment with actionCounts := [("LIKE", 1)] },
        [{ baseComment with actionCounts := [("LIKE", 1)] }]) := by
  rfl

/-- C3 (amended): `updateCommentActionCounts` fails with
CommentRevisionNotFoundError exactly when no comment with the given tenantID
and id exists; when the comment exists but none of its revisions matches the
given revisionID, the call succeeds, incrementing only the comment-level
aggregate and leaving every revision's counts unchanged. -/
theorem updateCommentActionCounts_error_iff_comment_missing
    (state : List Comment) (tenantID id revisionID : String)
    (delta : ActionCounts) :
    (updateCommentActionCounts state tenantID id revisionID delta =
        Except.error (ActionCountsError.commentRevisionNotFound id revisionID)
      ↔ state.find? (fun c => c.id == id && c.tenantID == tenantID) = none)
    ∧ (∀ c, state.find? (fun c => c.id == id && c.tenantID == tenantID) =
        some c →
      (∀ r ∈ c.revisions, r.id ≠ revisionID) →
      ∃ state', updateCommentActionCounts state tenantID id revisionID delta =
        Except.ok
          ({ c with actionCounts := mergeCounts c.actionCounts delta },
            state')) := by
  constructor
  · simp only [updateCommentActionCounts]
    rw [findOneAndUpdateList_fst]
    cases h : state.find? (fun c => c.id == id && c.tenantID == tenantID) with
    | none => simp
    | some c => simp
  · intro c hc hrev
    refine ⟨(findOneAndUpdateList
      (fun c => c.id == id && c.tenantID == tenantID)
      (applyActionCountsUpdate revisionID delta) state).2, ?_⟩
    simp only [updateCommentActionCounts]
    rw [findOneAndUpdateList_fst, hc]
    dsimp only
    have hmap : c.revisions.map (fun r =>
        if r.id == revisionID then
          { r with actionCounts := mergeCounts r.actionCounts delta }
        else r) = c.revisions := by
      conv_rhs => rw [← List.map_id c.revisions]
      apply List.map_congr_left
      intro r hr
      have hne : r.id ≠ revisionID := hrev r hr
      simp [hne]
    simp only [applyActionCountsUpdate, hmap]

/-- C3 witness: with the matching comment present and no revision named
`r9`, the amended statement yields a successful update of the aggregate. -/
theorem updateCommentActionCounts_error_iff_comment_missing_witness :
    ∃ state', updateCommentActionCounts [baseComment] "t" "c1" "r9"
        [("LIKE", 2)] =
      Except.ok ({ baseComment with
        actionCounts := mergeCounts baseComment.actionCounts [("LIKE", 2)] },
        state') :=
  (updateCommentActionCounts_error_iff_comment_missing [baseComment] "t"
    "c1" "r9" [("LIKE", 2)]).2 baseComment (by rfl) (by decide)

/-- C4 counterexample: `childComment`'s two ancestors both resolve to
nothing in an empty collection, yet the call returns an empty page instead
of failing with the broken-ancestry error. -/
theorem parents_all_ancestors_missing_silent :
    ∃ conn, retrieveCommentParentsConnection [] "t" childComment 2 0 =
        Except.ok conn
      ∧ conn.nodes = [] :=
  ⟨_, rfl, rfl⟩

/-- C4 (amended): with a positive limit, `retrieveCommentParentsConnection`
fails with the broken-ancestry error when at least one ancestor id in the
window resolves to a stored comment and at least one resolves to nothing;
when every requested ancestor id resolves to nothing, the call instead
silently returns a page with no nodes and no edges. -/
theorem parents_broken_ancestry_classified (collection : List Comment)
    (tenantID : String) (comment : Comment) (limit : Int) (skip : Nat)
    (hlim : 0 < limit) :
    ((∃ c ∈ collection,
        (ancestorWindow comment limit skip).contains c.id = true
          ∧ c.tenantID = tenantID) →
     (∃ a ∈ ancestorWindow comment limit skip,
        ∀ c ∈ collection, ¬(c.id = a ∧ c.tenantID = tenantID)) →
     retrieveCommentParentsConnection collection tenantID comment limit skip
       = Except.error ParentsError.brokenAncestry)
    ∧ ((∀ c ∈ collection,
          ¬((ancestorWindow comment limit skip).contains c.id = true
            ∧ c.tenantID = tenantID)) →
       comment.ancestorIDs ≠ [] →
       ∃ conn,
         retrieveCommentParentsConnection collection tenantID comment limit
           skip = Except.ok conn
         ∧ conn.nodes = [] ∧ conn.edges = []) := by
  have hnl : ¬ limit ≤ 0 := by omega
  constructor
  · rintro ⟨cw, hcw, hcontains, hctid⟩ ⟨a, haw, hamiss⟩
    have hanc : comment.ancestorIDs ≠ [] := by
      have haw' : a ∈ (comment.ancestorIDs.drop skip).take limit.toNat := haw
      exact List.ne_nil_of_mem
        (List.mem_of_mem_drop (List.mem_of_mem_take haw'))
    have hemp : comment.ancestorIDs.isEmpty = false :=
      List.isEmpty_eq_false.mpr hanc
    have h1 : ¬((!hasAncestors comment) = true) := by
      simp [hasAncestors, hemp]
    have hcwmem : cw ∈ collection.filter (fun c =>
        (ancestorWindow comment limit skip).contains c.id
          && c.tenantID == tenantID) := by
      rw [List.mem_filter, Bool.and_eq_true]
      exact ⟨hcw, hcontains, by simp [hctid]⟩
    have hlen : 0 < (collection.filter (fun c =>
        (ancestorWindow comment limit skip).contains c.id
          && c.tenantID == tenantID)).length :=
      List.length_pos.mpr (List.ne_nil_of_mem hcwmem)
    have hnodes : retrieveManyComments collection tenantID
        (ancestorWindow comment limit skip) =
        (ancestorWindow comment limit skip).map (fun i =>
          (collection.filter (fun c =>
            (ancestorWindow comment limit skip).contains c.id
              && c.tenantID == tenantID)).find? (fun c => c.id == i)) := by
      simp only [retrieveManyComments]
      rw [if_pos hlen]
    have hfind : (collection.filter (fun c =>
        (ancestorWindow comment limit skip).contains c.id
          && c.tenantID == tenantID)).find? (fun c => c.id == a) = none := by
      rw [List.find?_eq_none]
      intro x hx hpx
      rw [List.mem_filter] at hx
      obtain ⟨hxcol, hxpred⟩ := hx
      simp only [Bool.and_eq_true, beq_iff_eq] at hxpred hpx
      exact hamiss x hxcol ⟨hpx, hxpred.2⟩
    have hdnc : doesNotContainNull
        ((ancestorWindow comment limit skip).map (fun i =>
          (collection.filter (fun c =>
            (ancestorWindow comment limit skip).contains c.id
              && c.tenantID == tenantID)).find? (fun c => c.id == i)))
        = false := by
      rw [doesNotContainNull, List.all_eq_false]
      refine ⟨none, ?_, by simp⟩
      rw [List.mem_map]
      exact ⟨a, haw, hfind⟩
    simp only [retrieveCommentParentsConnection]
    rw [if_neg h1, if_neg hnl, hnodes, hdnc]
    rfl
  · intro hnone hanc
    have hemp : comment.ancestorIDs.isEmpty = false :=
      List.isEmpty_eq_false.mpr hanc
    have h1 : ¬((!hasAncestors comment) = true) := by
      simp [hasAncestors, hemp]
    have hfilter : collection.filter (fun c =>
        (ancestorWindow comment limit skip).contains c.id
          && c.tenantID == tenantID) = [] := by
      rw [List.filter_eq_nil_iff]
      intro c hc
      simp only [Bool.and_eq_true, beq_iff_eq, not_and]
      intro hcon htid
      exact hnone c hc ⟨hcon, htid⟩
    have hnodes : retrieveManyComments collection tenantID
        (ancestorWindow comment limit skip) = [] := by
      simp only [retrieveManyComments]
      rw [hfilter]
      simp
    refine ⟨{ edges := [], nodes := []
              pageInfo :=
                { hasNextPage := false
                  hasPreviousPage :=
                    decide (comment.ancestorIDs.length > limit.toNat + skip)
                  startCursor := none, endCursor := none } }, ?_, rfl, rfl⟩
    simp only [retrieveCommentParentsConnection]
    rw [if_neg h1, if_neg hnl, hnodes]
    rfl

/-- C4 witness: ancestor `a1` resolves while `a2` does not, so the call
fails with the broken-ancestry error. -/
theorem parents_broken_ancestry_classified_witness :
    retrieveCommentParentsConnection [storedAncestor] "t" childComment 2 0 =
      Except.error ParentsError.brokenAncestry :=
  (parents_broken_ancestry_classified [storedAncestor] "t" childComment 2 0
    (by decide)).1 (by decide) (by decide)

/-- C5 counterexample: on a comment without ancestors, limit zero returns a
page whose `hasPreviousPage` is false, not true. -/
theorem parents_zero_limit_no_ancestors :
    ∃ conn, retrieveCommentParentsConnection [] "t" baseComment 0 0 =
        Except.ok conn
      ∧ conn.pageInfo.hasPreviousPage = false :=
  ⟨_, rfl, rfl⟩

/-- C5 (amended): for every comment that has at least one ancestor,
`retrieveCommentParentsConnection` with limit zero returns — without error —
an empty page (no nodes, no edges) whose pageInfo has
`hasPreviousPage = true`. -/
theorem parents_zero_limit_with_ancestors (collection : List Comment)
    (tenantID : String) (comment : Comment) (skip : Nat)
    (hanc : comment.ancestorIDs ≠ []) :
    retrieveCommentParentsConnection collection tenantID comment 0 skip =
      Except.ok
        { edges := [], nodes := []
          pageInfo :=
            { hasNextPage := false, hasPreviousPage := true
              startCursor := some 0, endCursor := some 0 } } := by
  have hemp : comment.ancestorIDs.isEmpty = false :=
    List.isEmpty_eq_false.mpr hanc
  have h1 : ¬((!hasAncestors comment) = true) := by
    simp [hasAncestors, hemp]
  simp only [retrieveCommentParentsConnection]
  rw [if_neg h1, if_pos (by omega : (0:Int) ≤ 0)]
  rfl

/-- C5 witness: limit zero on the two-ancestor comment returns the empty
page with `hasPreviousPage = true`. -/
theorem parents_zero_limit_with_ancestors_witness :
    retrieveCommentParentsConnection [] "t" childComment 0 3 =
      Except.ok
        { edges := [], nodes := []
          pageInfo :=
            { hasNextPage := false, hasPreviousPage := true
              startCursor := some 0, endCursor := some 0 } } :=
  parents_zero_limit_with_ancestors [] "t" childComment 3 (by decide)

theorem mapNegate_involutive (l : ActionCounts) :
    l.map ((fun kv : String × Int => (kv.1, -kv.2))
      ∘ fun kv : String × Int => (kv.1, -kv.2)) = l := by
  induction l with
  | nil => rfl
  | cons h t ih =>
    simp only [List.map_cons, ih]
    simp

/-- C6: applying `getCommentCounts` with `negate = true` twice recovers the
original snapshot on every leaf counter — each per-action total, the
moderation-queue total and each per-queue count, and each per-status
count. -/
theorem getCommentCounts_double_negation (story : Story) :
    getCommentCounts
      { story with commentCounts := getCommentCounts story true } true
      = story.commentCounts := by
  obtain ⟨id, tid, ⟨action, ⟨mt, ⟨qu, qr, qp⟩⟩, ⟨sn, sa, sr, sp, sw⟩⟩, ia, iar⟩ :=
    story
  simp [getCommentCounts, mapNegate_involutive]

/-- C7: calling `archiveStory` on an already-archived story returns
successfully at once with the state — documents, counter aggregates and the
story itself — entirely unchanged, and calling it twice in a row is a no-op
both times. -/
theorem archiveStory_already_archived_noop (st : DBState)
    (tenantID id : String) (s : Story)
    (hfind : st.stories.find?
      (fun x => x.id == id && x.tenantID == tenantID) = some s)
    (harch : s.isArchived = true) :
    archiveStory true st tenantID id = Except.ok (none, st)
    ∧ (archiveStory true st tenantID id).bind
        (fun r => archiveStory true r.2 tenantID id) =
      Except.ok (none, st) := by
  have h : archiveStory true st tenantID id = Except.ok (none, st) := by
    simp only [archiveStory]
    rw [hfind]
    simp [harch]
  refine ⟨h, ?_⟩
  rw [h]
  exact h

/-- C7 witness: archiving the archived story `s1` twice is a no-op both
times. -/
theorem archiveStory_already_archived_noop_witness :
    archiveStory true sampleDB "t" "s1" = Except.ok (none, sampleDB)
    ∧ (archiveStory true sampleDB "t" "s1").bind
        (fun r => archiveStory true r.2 "t" "s1") =
      Except.ok (none, sampleDB) :=
  archiveStory_already_archived_noop sampleDB "t" "s1" archivedStoryA
    (by rfl) (by rfl)

/-- C10: on a successful migration `archiveStory` and `unarchiveStory`
return the updated story post-image with the new `isArchiving`/`isArchived`
flags, but return no value in their no-op branch (archive on an
already-archived story, unarchive on a not-archived story). -/
theorem archive_unarchive_return_values (st : DBState)
    (tenantID id : String) (s : Story)
    (hfind : st.stories.find?
      (fun x => x.id == id && x.tenantID == tenantID) = some s) :
    (s.isArchived = true →
      archiveStory true st tenantID id = Except.ok (none, st))
    ∧ (s.isArchived = false →
      ∃ st', archiveStory true st tenantID id =
        Except.ok
          (some { s with isArchiving := false, isArchived := true }, st'))
    ∧ (s.isArchived = false →
      unarchiveStory true st tenantID id = Except.ok (none, st))
    ∧ (s.isArchived = true →
      ∃ st', unarchiveStory true st tenantID id =
        Except.ok
          (some { s with isArchiving := false, isArchived := false }, st')) := by
  refine ⟨?_, ?_, ?_, ?_⟩
  · intro harch
    simp only [archiveStory]
    rw [hfind]
    simp [harch]
  · intro hlive
    have h2 : (findOneAndUpdateList
        (fun x => x.id == id && x.tenantID == tenantID)
        (fun s => { s with isArchiving := false, isArchived := true })
        st.stories).1 = some s := by
      rw [findOneAndUpdateList_fst, hfind]
    simp only [archiveStory]
    rw [hfind]
    dsimp only
    rw [if_neg (show ¬(s.isArchived = true) by simp [hlive])]
    rw [h2]
    exact ⟨_, rfl⟩
  · intro hlive
    simp only [unarchiveStory]
    rw [hfind]
    simp [hlive]
  · intro harch
    have h2 : (findOneAndUpdateList
        (fun x => x.id == id && x.tenantID == tenantID)
        (fun s => { s with isArchiving := false, isArchived := false })
        st.stories).1 = some s := by
      rw [findOneAndUpdateList_fst, hfind]
    simp only [unarchiveStory]
    rw [hfind]
    dsimp only
    rw [if_neg (show ¬((!s.isArchived) = true) by simp [harch])]
    rw [h2]
    exact ⟨_, rfl⟩

/-- C10 witness: the archived story `s1` unarchives to its post-image and
archives to no value; the live story `s2` archives to its post-image and
unarchives to no value. -/
theorem archive_unarchive_return_values_witness :
    archiveStory true sampleDB "t" "s1" = Except.ok (none, sampleDB)
    ∧ (∃ st', unarchiveStory true sampleDB "t" "s1" =
        Except.ok (some { archivedStoryA with
          isArchiving := false, isArchived := false }, st'))
    ∧ unarchiveStory true sampleDB "t" "s2" = Except.ok (none, sampleDB)
    ∧ (∃ st', archiveStory true sampleDB "t" "s2" =
        Except.ok (some { liveStoryB with
          isArchiving := false, isArchived := true }, st')) :=
  ⟨(archive_unarchive_return_values sampleDB "t" "s1" archivedStoryA
      (by rfl)).1 (by rfl),
   (archive_unarchive_return_values sampleDB "t" "s1" archivedStoryA
      (by rfl)).2.2.2 (by rfl),
   (archive_unarchive_return_values sampleDB "t" "s2" liveStoryB
      (by rfl)).2.2.1 (by rfl),
   (archive_unarchive_return_values sampleDB "t" "s2" liveStoryB
      (by rfl)).2.1 (by rfl)⟩

theorem mem_insertSorted {α : Type} (le : α → α → Bool) (a b : α)
    (l : List α) : b ∈ insertSorted le a l ↔ b = a ∨ b ∈ l := by
  induction l with
  | nil => simp [insertSorted]
  | cons x xs ih =>
    simp only [insertSorted]
    split
    · simp [List.mem_cons]
    · simp only [List.mem_cons, ih]
      tauto

theorem pairwise_insertSorted {α : Type} (le : α → α → Bool)
    (htot : ∀ a b, le a b = true ∨ le b a = true)
    (htrans : ∀ a b c, le a b = true → le b c = true → le a c = true)
    (a : α) (l : List α)
    (hl : l.Pairwise (fun x y => le x y = true)) :
    (insertSorted le a l).Pairwise (fun x y => le x y = true) := by
  induction l with
  | nil => simp [insertSorted]
  | cons x xs ih =>
    rcases List.pairwise_cons.1 hl with ⟨hx, hxs⟩
    simp only [insertSorted]
    split
    · rename_i hax
      refine List.pairwise_cons.2 ⟨?_, hl⟩
      intro b hb
      rcases List.mem_cons.1 hb with rfl | hb
      · exact hax
      · exact htrans a x b hax (hx b hb)
    · rename_i hax
      have hxa : le x a = true := by
        rcases htot a x with h | h
        · exact absurd h hax
        · exact h
      refine List.pairwise_cons.2 ⟨?_, ih hxs⟩
      intro b hb
      rcases (mem_insertSorted le a b xs).1 hb with rfl | hb
      · exact hxa
      · exact hx b hb

theorem pairwise_sortDocs {α : Type} (le : α → α → Bool)
    (htot : ∀ a b, le a b = true ∨ le b a = true)
    (htrans : ∀ a b c, le a b = true → le b c = true → le a c = true)
    (l : List α) :
    (sortDocs le l).Pairwise (fun x y => le x y = true) := by
  induction l with
  | nil => simp [sortDocs]
  | cons x xs ih =>
    exact pairwise_insertSorted le htot htrans x _ ih

theorem byCountDesc_total (count : Comment → Int) (a b : Comment) :
    byCountDesc count a b = true ∨ byCountDesc count b a = true := by
  unfold byCountDesc
  split_ifs <;> simp only [decide_eq_true_eq] <;> omega

theorem byCountDesc_trans (count : Comment → Int) (a b c : Comment)
    (hab : byCountDesc count a b = true)
    (hbc : byCountDesc count b c = true) :
    byCountDesc count a c = true := by
  unfold byCountDesc at hab hbc ⊢
  split_ifs at hab hbc ⊢ <;> simp only [decide_eq_true_eq] at * <;> omega

theorem byCountDesc_imp (count : Comment → Int) (a b : Comment)
    (h : byCountDesc count a b = true) :
    count b < count a ∨ (count a = count b ∧ b.createdAt ≤ a.createdAt) := by
  unfold byCountDesc at h
  split_ifs at h <;> simp only [decide_eq_true_eq] at h <;> omega

theorem nodesToEdges_cursor_map (nodes : List Comment) (after : Option Nat) :
    (nodesToEdges nodes (ordinalCursorGetter after)).map Edge.cursor
      = (List.range nodes.length).map (fun k => after.getD 0 + k + 1) := by
  unfold nodesToEdges ordinalCursorGetter
  rw [List.map_map]
  have h : (Edge.cursor ∘ fun p : Nat × Comment =>
      ({ node := p.2, cursor := after.getD 0 + p.1 + 1 } : Edge Comment))
      = (fun k => after.getD 0 + k + 1) ∘ Prod.fst := by
    funext p
    rfl
  rw [h, ← List.map_map, List.enum_map_fst]

theorem range_map_getLast? (f : Nat → Nat) (n : Nat) :
    ((List.range n).map f).getLast? =
      if n = 0 then none else some (f (n - 1)) := by
  cases n with
  | zero => rfl
  | succ m =>
    rw [List.range_succ, List.map_append]
    simp [List.getLast?_concat]

theorem resolveConnection_nodes (docs : List Comment)
    (le : Comment → Comment → Bool) (skip limit : Nat)
    (getCursor : Comment → Nat → Nat) :
    (resolveConnection docs le skip limit getCursor).nodes
      = ((sortDocs le docs).drop skip).take limit := by
  simp only [resolveConnection, List.take_take]
  rw [Nat.min_eq_left (Nat.le_succ limit)]

theorem resolveConnection_edges_cursors (docs : List Comment)
    (le : Comment → Comment → Bool) (skip limit : Nat)
    (after : Option Nat) :
    (resolveConnection docs le skip limit
        (ordinalCursorGetter after)).edges.map Edge.cursor
      = (List.range (resolveConnection docs le skip limit
          (ordinalCursorGetter after)).nodes.length).map
          (fun k => after.getD 0 + k + 1) := by
  simp only [resolveConnection]
  rw [nodesToEdges_cursor_map]

theorem resolveConnection_endCursor (docs : List Comment)
    (le : Comment → Comment → Bool) (skip limit : Nat)
    (after : Option Nat) :
    (resolveConnection docs le skip limit
        (ordinalCursorGetter after)).pageInfo.endCursor
      = (if (resolveConnection docs le skip limit
            (ordinalCursorGetter after)).nodes.length = 0 then none
         else some (after.getD 0 + (resolveConnection docs le skip limit
            (ordinalCursorGetter after)).nodes.length)) := by
  simp only [resolveConnection]
  rw [← List.getLast?_map, nodesToEdges_cursor_map, range_map_getLast?]
  split_ifs with h
  · rfl
  · congr 1
    omega

theorem retrieveRepliesDescConnection_nodes (docs : List Comment)
    (after : Option Nat) (limit : Nat) :
    (retrieveRepliesDescConnection docs after limit).nodes
      = ((sortDocs repliesLE docs).drop (after.getD 0)).take limit := by
  simp only [retrieveRepliesDescConnection]
  exact resolveConnection_nodes docs repliesLE (after.getD 0) limit
    (ordinalCursorGetter after)

/-- C8: for REPLIES_DESC and REACTION_DESC pagination, the cursor at
zero-based position k of a page fetched with cursor `after = c` equals
`c + k + 1`; a page of L nodes has endCursor `c + L`; the next page fetched
with `after = c + L` consists exactly of the sorted sequence from zero-based
rank `c + L` (ordinal `c + L + 1`) onward; and the page is ordered by the
count field descending with ties broken by `createdAt` descending. -/
theorem count_sort_cursor_ordinals (docs : List Comment)
    (c limit limit2 : Nat) :
    ((retrieveRepliesDescConnection docs (some c) limit).edges.map Edge.cursor
      = (List.range
          (retrieveRepliesDescConnection docs (some c) limit).nodes.length).map
          (fun k => c + k + 1))
    ∧ ((retrieveRepliesDescConnection docs (some c) limit).pageInfo.endCursor
      = if (retrieveRepliesDescConnection docs (some c) limit).nodes.length
            = 0 then none
        else some (c +
          (retrieveRepliesDescConnection docs (some c) limit).nodes.length))
    ∧ ((retrieveRepliesDescConnection docs
        (some (c +
          (retrieveRepliesDescConnection docs (some c) limit).nodes.length))
        limit2).nodes
      = ((sortDocs repliesLE docs).drop
          (c +
            (retrieveRepliesDescConnection docs
              (some c) limit).nodes.length)).take limit2)
    ∧ List.Pairwise (fun a b => b.childCount < a.childCount
        ∨ (a.childCount = b.childCount ∧ b.createdAt ≤ a.createdAt))
        (retrieveRepliesDescConnection docs (some c) limit).nodes
    ∧ ((retrieveReactionDescConnection docs (some c) limit).edges.map
          Edge.cursor
      = (List.range
          (retrieveReactionDescConnection docs
            (some c) limit).nodes.length).map
          (fun k => c + k + 1)) := by
  refine ⟨?_, ?_, ?_, ?_, ?_⟩
  · simpa [retrieveRepliesDescConnection] using
      resolveConnection_edges_cursors docs repliesLE c limit (some c)
  · simpa [retrieveRepliesDescConnection] using
      resolveConnection_endCursor docs repliesLE c limit (some c)
  · simpa using retrieveRepliesDescConnection_nodes docs
      (some (c +
        (retrieveRepliesDescConnection docs (some c) limit).nodes.length))
      limit2
  · have hsorted := pairwise_sortDocs repliesLE
      (byCountDesc_total (fun x => x.childCount))
      (byCountDesc_trans (fun x => x.childCount)) docs
    rw [retrieveRepliesDescConnection_nodes docs (some c) limit]
    refine List.Pairwise.imp ?_ (List.Pairwise.sublist ?_ hsorted)
    · intro a b h
      exact byCountDesc_imp (fun x => x.childCount) a b h
    · exact (List.take_sublist _ _).trans (List.drop_sublist _ _)
  · simpa [retrieveReactionDescConnection] using
      resolveConnection_edges_cursors docs reactionLE c limit (some c)

end Talk
